import Mathlib

/-!
Shallow embedding of the game logic of the `fixit` repository
(src/api.rs, src/screen.rs, src/pause.rs) and proofs about it.

Modelling conventions:
* Drawing code, textures, screen positions, fonts and the ggez plumbing are
  I/O glue and are omitted; only the pure game state and its transitions are
  embedded.
* Rust `i32` frame counters are modelled as `Int` (they advance by 1 per
  frame and the session ends within a couple hundred frames, far from any
  overflow).
* The uniform `f32` sample drawn by `rand::thread_rng().gen_range(0. ..1.)`
  in `FixableGameObject::update` is modelled as an explicit rational sample
  supplied per frame (a stubbed random source, as the spec's testing
  contract prescribes); a whole frame gets a stream `Nat → ℚ` of samples,
  one per component index.
-/

/-- The keyboard keys the source mentions (`ggez`/`winit` `VirtualKeyCode`
restricted to the keys used by `create_objects`, the quit key, and a few
spare letters for concrete test inputs). -/
inductive VirtualKeyCode where
  | W | M | L | D | R | A | J | K | Escape
  deriving DecidableEq, Repr

/-- `GameState` (screen.rs): the global game configuration. -/
structure GameState where
  broken_lifetime : Int
  deriving DecidableEq, Repr

/-- `GameState::chance_of_breaking` (screen.rs):
`self.broken_lifetime as f32 * 0.00001`. -/
def GameState.chance_of_breaking (s : GameState) : ℚ :=
  (s.broken_lifetime : ℚ) * (1 / 100000)

/-- The static `GAME_STATE` of screen.rs: `broken_lifetime: 120`. -/
def GAME_STATE : GameState := { broken_lifetime := 120 }

/-- `KeyPopup` (api.rs).  The rendered `text` is the display of the key, so
it is kept as the key itself; `center` is draw-only and omitted. -/
structure KeyPopup where
  key : VirtualKeyCode
  frames_existed : Int
  lifetime : Int
  deriving DecidableEq, Repr

/-- `KeyPopup::new` (api.rs): `frames_existed: 0` and the given lifetime. -/
def KeyPopup.new (key : VirtualKeyCode) (lifetime : Int) : KeyPopup :=
  { key := key, frames_existed := 0, lifetime := lifetime }

/-- `KeyPopup::update` (api.rs): `self.frames_existed += 1`. -/
def KeyPopup.update (p : KeyPopup) : KeyPopup :=
  { p with frames_existed := p.frames_existed + 1 }

/-- `FixableGameObject` (api.rs); `position` and the two textures are
draw-only and omitted. -/
structure FixableGameObject where
  fix_key : VirtualKeyCode
  frames_since_broken : Option Int
  key_object : Option KeyPopup
  deriving DecidableEq, Repr

/-- `FixableGameObject::new` (api.rs): not broken, no popup. -/
def FixableGameObject.new (fix_key : VirtualKeyCode) : FixableGameObject :=
  { fix_key := fix_key, frames_since_broken := none, key_object := none }

/-- `FixableGameObject::is_broken` (api.rs):
`self.frames_since_broken.is_some()`. -/
def FixableGameObject.is_broken (o : FixableGameObject) : Bool :=
  o.frames_since_broken.isSome

/-- `FixableGameObject::mess_up` (api.rs): the broken counter is set to
`Some(0)` and a fresh popup is created with the configured lifetime (its
center arithmetic is draw-only and omitted). -/
def FixableGameObject.mess_up (o : FixableGameObject) (state : GameState) :
    FixableGameObject :=
  { o with frames_since_broken := some 0,
           key_object := some (KeyPopup.new o.fix_key state.broken_lifetime) }

/-- `FixableGameObject::on_key_pressed` (api.rs): if the pressed key equals
`fix_key` and the object is broken, the broken counter and the popup are
cleared and `true` is returned; otherwise `false` and no change.  The
returned pair is (the Rust return value, the updated object). -/
def FixableGameObject.on_key_pressed (o : FixableGameObject)
    (code : VirtualKeyCode) : Bool × FixableGameObject :=
  if code == o.fix_key && o.is_broken then
    (true, { o with frames_since_broken := none, key_object := none })
  else
    (false, o)

/-- The random trigger used by `FixableGameObject::update` (api.rs):
the one uniform sample drawn for the frame is compared strictly against the
per-frame break probability.  The sample is a parameter here (the stubbed
random source of the spec's testing contract). -/
def shouldFire (sample probability : ℚ) : Bool :=
  decide (sample < probability)

/-- `FixableGameObject::update` (api.rs).  While broken, the counter and the
owned popup each advance by one (`key_object.as_mut().unwrap()` is modelled
by `Option.map`; the popup is present whenever the object is broken, see the
reachability invariant proved below).  While unbroken, one random sample
decides whether the object breaks this frame. -/
def FixableGameObject.update (o : FixableGameObject) (state : GameState)
    (sample : ℚ) : FixableGameObject :=
  match o.frames_since_broken with
  | some n =>
      { o with frames_since_broken := some (n + 1),
               key_object := o.key_object.map KeyPopup.update }
  | none =>
      if shouldFire sample state.chance_of_breaking then o.mess_up state else o

/-- `update` iterated over `n` frames, with a stubbed sample stream. -/
def FixableGameObject.tickN (o : FixableGameObject) (state : GameState)
    (samples : Nat → ℚ) : Nat → FixableGameObject
  | 0 => o
  | n + 1 => (o.tickN state samples n).update state (samples n)

/-- `GameOverCause` (pause.rs).  The `GameOverScreen` built from a cause is
pure presentation, so the overlay is modelled by its cause. -/
inductive GameOverCause where
  | WrongKey (key : VirtualKeyCode)
  | NotInTime (key : VirtualKeyCode)
  deriving DecidableEq, Repr

/-- `Window` (screen.rs); `background` is draw-only and omitted; the
`menu: Option<Box<dyn GameObject>>` holds the game-over overlay, modelled by
its `GameOverCause`. -/
structure Window where
  frame : Nat
  components : List FixableGameObject
  menu : Option GameOverCause
  deriving DecidableEq, Repr

/-- `Window::pause` (screen.rs): installs the given overlay. -/
def Window.pause (w : Window) (menu : GameOverCause) : Window :=
  { w with menu := some menu }

/-- `Window::is_paused` (screen.rs): `self.menu.is_some()`. -/
def Window.is_paused (w : Window) : Bool :=
  w.menu.isSome

/-- `create_objects` (screen.rs): the canonical layout, in the order of the
returned array literal.  Note the three drawers all use `VirtualKeyCode::D`. -/
def create_objects : List FixableGameObject :=
  [FixableGameObject.new VirtualKeyCode.W,
   FixableGameObject.new VirtualKeyCode.M,
   FixableGameObject.new VirtualKeyCode.R,
   FixableGameObject.new VirtualKeyCode.L,
   FixableGameObject.new VirtualKeyCode.D,
   FixableGameObject.new VirtualKeyCode.D,
   FixableGameObject.new VirtualKeyCode.D]

/-- `Window::new` (screen.rs): frame 0, the canonical objects, no menu. -/
def Window.new : Window :=
  { frame := 0, components := create_objects, menu := none }

/-- The game-over test inside the update loop of `Window::update`
(screen.rs line 89):
`component.is_broken() && component.key_object.as_ref().unwrap().frames_existed > 120`.
The `unwrap` is modelled by `getD 0` (the popup is present whenever the
object is broken, see the reachability invariant); the compared bound is the
literal `120` of the source, not the popup's stored lifetime. -/
def Window.timed_out_by_window (o : FixableGameObject) : Bool :=
  o.is_broken && decide (((o.key_object.map fun p => p.frames_existed).getD 0) > 120)

/-- The component loop of `Window::update` (screen.rs lines 87-93): each
component is updated in order and its game-over test is checked right after
its own update; at the first hit the loop `break`s, leaving all later
components untouched.  Returns the components after the loop and the
`game_over_key` (the hit component's `fix_key`, if any).  `i` indexes the
stubbed sample stream. -/
def Window.update_components (state : GameState) (samples : Nat → ℚ) :
    Nat → List FixableGameObject → List FixableGameObject × Option VirtualKeyCode
  | _, [] => ([], none)
  | i, o :: rest =>
    if Window.timed_out_by_window (o.update state (samples i)) then
      (o.update state (samples i) :: rest, some (o.update state (samples i)).fix_key)
    else
      (o.update state (samples i) :: (Window.update_components state samples (i + 1) rest).1,
       (Window.update_components state samples (i + 1) rest).2)

/-- `Window::update` (screen.rs, the `EventHandler::update` impl): the frame
counter always increments; while paused nothing else happens; otherwise the
component loop runs and, if it reports a key, the window pauses with a
`NotInTime` game over.  (In the source the counter increments before the
paused check; incrementing the counter does not change `is_paused`, so the
check is written on `w` directly.) -/
def Window.update (w : Window) (state : GameState) (samples : Nat → ℚ) : Window :=
  if w.is_paused then { w with frame := w.frame + 1 }
  else
    match Window.update_components state samples 0 w.components with
    | (comps, some k) =>
        Window.pause { w with frame := w.frame + 1, components := comps }
          (GameOverCause.NotInTime k)
    | (comps, none) => { w with frame := w.frame + 1, components := comps }

/-- Outcome of `Window::key_down_event` (screen.rs): `process::exit(0)` on
the quit key, or the updated window. -/
inductive KeyDownResult where
  | exit
  | cont (w : Window)
  deriving DecidableEq, Repr

/-- The window carried by a `KeyDownResult`, when the process lives on. -/
def KeyDownResult.window : KeyDownResult → Option Window
  | .exit => none
  | .cont w => some w

/-- The key loop of `Window::key_down_event` (screen.rs lines 109-114):
every component receives the press, with no early stop; `fixed_something`
(the second result) is true when any component accepted it. -/
def Window.press_components (code : VirtualKeyCode) :
    List FixableGameObject → List FixableGameObject × Bool
  | [] => ([], false)
  | o :: rest =>
    ((o.on_key_pressed code).2 :: (Window.press_components code rest).1,
     (o.on_key_pressed code).1 || (Window.press_components code rest).2)

/-- `Window::key_down_event` (screen.rs): Escape exits the process; any
other key is offered to every component, and when none accepts it the window
pauses with a `WrongKey` game over.  There is no paused guard in the
source. -/
def Window.key_down_event (w : Window) (keycode : Option VirtualKeyCode) :
    KeyDownResult :=
  match keycode with
  | none => KeyDownResult.cont w
  | some code =>
    if code == VirtualKeyCode.Escape then KeyDownResult.exit
    else if (Window.press_components code w.components).2 then
      KeyDownResult.cont { w with components := (Window.press_components code w.components).1 }
    else
      KeyDownResult.cont
        (Window.pause { w with components := (Window.press_components code w.components).1 }
          (GameOverCause.WrongKey code))

/-- States of a single object reachable from construction through the public
operations (`new`, `update`, `on_key_pressed`, `mess_up`), under a fixed
configuration. -/
inductive Reachable (state : GameState) : FixableGameObject → Prop where
  | new (key : VirtualKeyCode) : Reachable state (FixableGameObject.new key)
  | update {o : FixableGameObject} (sample : ℚ) :
      Reachable state o → Reachable state (o.update state sample)
  | key_press {o : FixableGameObject} (code : VirtualKeyCode) :
      Reachable state o → Reachable state ((o.on_key_pressed code).2)
  | break_now {o : FixableGameObject} :
      Reachable state o → Reachable state (o.mess_up state)

/-- What the spec's words say the update loop does when nothing stops it:
every component updated in order (used to compare the code's loop against
the spec's description). -/
def tick_all (state : GameState) (samples : Nat → ℚ) :
    Nat → List FixableGameObject → List FixableGameObject
  | _, [] => []
  | i, o :: rest => o.update state (samples i) :: tick_all state samples (i + 1) rest

/-- Modelled from the spec's words for comparison with the code's check
(`Window.timed_out_by_window`): the timeout boundary taken at the configured
lifetime `L` rather than at the source's literal `120`. -/
def timed_out_spec (L : Int) (o : FixableGameObject) : Bool :=
  o.is_broken && decide (((o.key_object.map fun p => p.frames_existed).getD 0) > L)

/-! ## Concrete states used as test inputs -/

/-- A broken object one frame from the window's game-over boundary. -/
def oA : FixableGameObject :=
  { fix_key := VirtualKeyCode.W, frames_since_broken := some 120,
    key_object := some { key := VirtualKeyCode.W, frames_existed := 120, lifetime := 120 } }

/-- A second broken object, far from the boundary. -/
def oB : FixableGameObject :=
  { fix_key := VirtualKeyCode.M, frames_since_broken := some 5,
    key_object := some { key := VirtualKeyCode.M, frames_existed := 5, lifetime := 120 } }

/-- A window holding both `oA` and `oB`, not paused. -/
def w_two : Window := { frame := 0, components := [oA, oB], menu := none }

/-- A window whose single object is not broken. -/
def w_idle : Window :=
  { frame := 0, components := [FixableGameObject.new VirtualKeyCode.W], menu := none }

/-- A broken object fixed by `M`. -/
def oBrokenM : FixableGameObject :=
  { fix_key := VirtualKeyCode.M, frames_since_broken := some 3,
    key_object := some { key := VirtualKeyCode.M, frames_existed := 3, lifetime := 120 } }

/-- A paused (game-over) window still holding a broken object. -/
def w_paused : Window :=
  { frame := 7, components := [oBrokenM],
    menu := some (GameOverCause.NotInTime VirtualKeyCode.W) }

/-- The canonical layout with the first two drawers broken. -/
def w_two_drawers : Window :=
  { frame := 0,
    components :=
      [FixableGameObject.new VirtualKeyCode.W,
       FixableGameObject.new VirtualKeyCode.M,
       FixableGameObject.new VirtualKeyCode.R,
       FixableGameObject.new VirtualKeyCode.L,
       (FixableGameObject.new VirtualKeyCode.D).mess_up GAME_STATE,
       (FixableGameObject.new VirtualKeyCode.D).mess_up GAME_STATE,
       FixableGameObject.new VirtualKeyCode.D],
    menu := none }

/-- The configuration with `broken_lifetime` 121. -/
def state121 : GameState := { broken_lifetime := 121 }

/-- An object broken under lifetime 121, then ticked exactly 121 frames:
its popup has `frames_existed` equal to its stored lifetime. -/
def o121 : FixableGameObject :=
  ((FixableGameObject.new VirtualKeyCode.W).mess_up state121).tickN state121 (fun _ => 0) 121

/-- A broken probe object whose popup has lived `fe` frames. -/
def probe (fe : Int) : FixableGameObject :=
  { fix_key := VirtualKeyCode.W, frames_since_broken := some 0,
    key_object := some { key := VirtualKeyCode.W, frames_existed := fe, lifetime := 120 } }

/-! ## Helper lemmas -/

/-- A key press on an unbroken object is rejected and changes nothing. -/
theorem on_key_pressed_unbroken {o : FixableGameObject} (h : o.is_broken = false)
    (code : VirtualKeyCode) : o.on_key_pressed code = (false, o) := by
  simp [FixableGameObject.on_key_pressed, h]

/-- The key loop is the pointwise press of every component, succeeding when
any component accepted. -/
theorem press_components_eq (code : VirtualKeyCode) (comps : List FixableGameObject) :
    Window.press_components code comps =
      (comps.map fun o => (o.on_key_pressed code).2,
       comps.any fun o => (o.on_key_pressed code).1) := by
  induction comps with
  | nil => rfl
  | cons o rest ih => simp [Window.press_components, ih, List.any_cons]

/-- With no component broken, the key loop returns the components unchanged
and reports no fix. -/
theorem press_components_all_unbroken {comps : List FixableGameObject}
    (hb : ∀ o ∈ comps, o.is_broken = false) (code : VirtualKeyCode) :
    Window.press_components code comps = (comps, false) := by
  induction comps with
  | nil => rfl
  | cons o rest ih =>
    have ho := on_key_pressed_unbroken (hb o (by simp)) code
    have hr := ih fun o' h' => hb o' (by simp [h'])
    simp [Window.press_components, ho, hr]

/-- After `mess_up`, `n` ticks yield counter `n` and a popup that has lived
`n` frames with the configured lifetime. -/
theorem tickN_mess_up (o : FixableGameObject) (state : GameState)
    (samples : Nat → ℚ) (n : Nat) :
    ((o.mess_up state).tickN state samples n).frames_since_broken = some (n : Int) ∧
    ((o.mess_up state).tickN state samples n).key_object =
      some { key := o.fix_key, frames_existed := (n : Int),
             lifetime := state.broken_lifetime } := by
  induction n with
  | zero => exact ⟨rfl, rfl⟩
  | succ n ih =>
    obtain ⟨h1, h2⟩ := ih
    refine ⟨?_, ?_⟩ <;>
      simp [FixableGameObject.tickN, FixableGameObject.update, h1, h2, KeyPopup.update]

/-! ## Claim theorems -/

/-- C6 (confirmed): `on_key_pressed` returns true and clears the broken
state (removing the popup) iff the object is currently broken and the
pressed key equals its assigned fix key; in every other case it returns
false and leaves the object unchanged. -/
theorem on_key_pressed_spec (o : FixableGameObject) (code : VirtualKeyCode) :
    ((o.on_key_pressed code).1 = true ↔ o.is_broken = true ∧ code = o.fix_key) ∧
    (o.is_broken = true ∧ code = o.fix_key →
      (o.on_key_pressed code).2 =
        { o with frames_since_broken := none, key_object := none }) ∧
    (¬(o.is_broken = true ∧ code = o.fix_key) → (o.on_key_pressed code).2 = o) := by
  by_cases hb : o.is_broken = true
  · by_cases hk : code = o.fix_key
    · simp [FixableGameObject.on_key_pressed, hb, hk]
    · simp [FixableGameObject.on_key_pressed, hb, hk]
  · simp [FixableGameObject.on_key_pressed, hb]

/-- C9 (confirmed): for every probability p in [0,1) and every fixed sample
s in [0,1) supplied by a stubbed random source, the trigger fires iff
s < p (strict comparison). -/
theorem shouldFire_iff (p s : ℚ) (_hp0 : 0 ≤ p) (_hp1 : p < 1)
    (_hs0 : 0 ≤ s) (_hs1 : s < 1) :
    shouldFire s p = true ↔ s < p := by
  simp [shouldFire]

/-- C9 witness: the trigger contract instantiated at p = 1/2, s = 1/4. -/
theorem shouldFire_iff_witness :
    ((0:ℚ) ≤ 1/2 ∧ (1/2:ℚ) < 1 ∧ (0:ℚ) ≤ 1/4 ∧ (1/4:ℚ) < 1) ∧
    (shouldFire (1/4) (1/2) = true ↔ (1/4:ℚ) < 1/2) :=
  ⟨⟨by norm_num, by norm_num, by norm_num, by norm_num⟩,
    shouldFire_iff (1/2) (1/4) (by norm_num) (by norm_num) (by norm_num) (by norm_num)⟩

/-- C7 (confirmed): for every object reachable from construction via the
public operations, the broken counter is present iff the popup is present
(`frames_since_broken.isSome` iff `key_object.isSome`), so the popup
accesses performed while broken never hit an absent popup. -/
theorem broken_counter_iff_popup {state : GameState} {o : FixableGameObject}
    (h : Reachable state o) :
    o.frames_since_broken.isSome = o.key_object.isSome := by
  induction h with
  | new key => rfl
  | break_now _ ih => rfl
  | @key_press o' code _ ih =>
    by_cases hb : (code == o'.fix_key && o'.is_broken) = true
    · simp [FixableGameObject.on_key_pressed, hb]
    · simp [FixableGameObject.on_key_pressed, hb, ih]
  | @update o' sample _ ih =>
    rcases hfs : o'.frames_since_broken with _ | n
    · rw [hfs] at ih
      by_cases hf : shouldFire sample state.chance_of_breaking = true
      · simp [FixableGameObject.update, hfs, hf, FixableGameObject.mess_up]
      · simp [FixableGameObject.update, hfs, hf]
        simpa using ih.symm
    · have hk : o'.key_object.isSome = true := by rw [← ih, hfs]; rfl
      rcases ho : o'.key_object with _ | p
      · rw [ho] at hk; simp at hk
      · simp [FixableGameObject.update, hfs, ho]

/-- C7 witness: the invariant holds at a freshly constructed object. -/
theorem broken_counter_iff_popup_witness :
    (FixableGameObject.new VirtualKeyCode.W).frames_since_broken.isSome =
      (FixableGameObject.new VirtualKeyCode.W).key_object.isSome :=
  broken_counter_iff_popup (@Reachable.new GAME_STATE VirtualKeyCode.W)

/-- C8 (confirmed): once an object breaks (counter 0 and a fresh popup with
frames 0), N ticks without an intervening fix yield counter N and popup
frames N, for every non-negative N. -/
theorem ticks_after_break (o : FixableGameObject) (state : GameState)
    (samples : Nat → ℚ) (n : Nat) :
    ((o.mess_up state).tickN state samples n).frames_since_broken = some (n : Int) ∧
    ((o.mess_up state).tickN state samples n).key_object =
      some { key := o.fix_key, frames_existed := (n : Int),
             lifetime := state.broken_lifetime } :=
  tickN_mess_up o state samples n

/-- C4 (code bug): the window's timeout check compares the popup's frames
against the literal 120 instead of the configured lifetime.  An object
configured with lifetime 121 whose popup has lived exactly 121 frames
(frames == lifetime, which the spec's strict boundary says is NOT timed
out) is reported timed out by the window's check. -/
theorem timeout_check_ignores_configured_lifetime :
    (o121.key_object.map fun p => p.frames_existed) = some 121 ∧
    (o121.key_object.map fun p => p.lifetime) = some 121 ∧
    Window.timed_out_by_window o121 = true := by
  obtain ⟨h1, h2⟩ := tickN_mess_up (FixableGameObject.new VirtualKeyCode.W) state121
    (fun _ => 0) 121
  have e : o121 = ((FixableGameObject.new VirtualKeyCode.W).mess_up state121).tickN
      state121 (fun _ => 0) 121 := rfl
  have h1' : o121.frames_since_broken = some 121 := by rw [e, h1]; rfl
  have h2' : o121.key_object =
      some { key := VirtualKeyCode.W, frames_existed := 121, lifetime := 121 } := by
    rw [e, h2]; rfl
  refine ⟨?_, ?_, ?_⟩ <;>
    simp [Window.timed_out_by_window, FixableGameObject.is_broken, h1', h2']

/-- C10 (confirmed): the window's game-over test coincides with the
lifetime-based boundary on every object iff the configured lifetime is
exactly 120; and the shipped configuration's lifetime is 120. -/
theorem timeout_literal_matches_lifetime_iff_120 (L : Int) :
    ((∀ o, Window.timed_out_by_window o = timed_out_spec L o) ↔ L = 120) ∧
    GAME_STATE.broken_lifetime = 120 := by
  refine ⟨⟨fun h => ?_, fun h o => by subst h; rfl⟩, rfl⟩
  have h1 := h (probe 121)
  have h2 := h (probe 120)
  simp [Window.timed_out_by_window, timed_out_spec, probe,
    FixableGameObject.is_broken] at h1 h2
  omega

/-- C1 (counterexample): in a session where no object is broken, a non-quit
keypress is NOT inert: the window (initially unpaused) transitions to
Paused with a WrongKey game over. -/
theorem keypress_nothing_broken_pauses :
    w_idle.is_paused = false ∧
    w_idle.key_down_event (some VirtualKeyCode.A) =
      KeyDownResult.cont (w_idle.pause (GameOverCause.WrongKey VirtualKeyCode.A)) ∧
    (w_idle.pause (GameOverCause.WrongKey VirtualKeyCode.A)).is_paused = true := by
  decide

/-- C1 (amended): with no object broken, a non-quit keypress leaves every
object unchanged but transitions the window to Paused with a
WrongKey(pressed key) game over: it is treated as a wrong key, not as
inert. -/
theorem keypress_nothing_broken_goes_game_over (w : Window) (code : VirtualKeyCode)
    (hb : ∀ o ∈ w.components, o.is_broken = false)
    (hc : code ≠ VirtualKeyCode.Escape) :
    w.key_down_event (some code) =
      KeyDownResult.cont (w.pause (GameOverCause.WrongKey code)) := by
  have hcode : (code == VirtualKeyCode.Escape) = false := by simpa using hc
  have hp := press_components_all_unbroken hb code
  simp [Window.key_down_event, hcode, hp, Window.pause]

/-- C1 witness: the amended behaviour at the idle window and the key J. -/
theorem keypress_nothing_broken_goes_game_over_witness :
    w_idle.key_down_event (some VirtualKeyCode.J) =
      KeyDownResult.cont (w_idle.pause (GameOverCause.WrongKey VirtualKeyCode.J)) :=
  keypress_nothing_broken_goes_game_over w_idle VirtualKeyCode.J (by decide) (by decide)

/-- C3 (counterexample): while the window is Paused, the key handler is NOT
a no-op: pressing the broken object's key clears its broken state, and
pressing a key nothing accepts replaces the pause overlay with a fresh
WrongKey one. -/
theorem paused_keypress_changes_state :
    w_paused.is_paused = true ∧
    oBrokenM.is_broken = true ∧
    ((w_paused.key_down_event (some VirtualKeyCode.M)).window.map
      fun w => w.components.map FixableGameObject.is_broken) = some [false] ∧
    w_paused.menu = some (GameOverCause.NotInTime VirtualKeyCode.W) ∧
    ((w_paused.key_down_event (some VirtualKeyCode.A)).window.map fun w => w.menu) =
      some (some (GameOverCause.WrongKey VirtualKeyCode.A)) := by
  decide

/-- C3 (amended): while Paused, `update` leaves every object and the pause
overlay unchanged (only the frame counter advances), but the key handler is
NOT guarded by the pause: a non-quit key is still offered to every object
and, when none accepts it, the pause overlay is replaced by a WrongKey game
over. -/
theorem paused_update_frozen_but_keys_still_handled (w : Window)
    (state : GameState) (samples : Nat → ℚ) (code : VirtualKeyCode)
    (hp : w.is_paused = true) (hc : code ≠ VirtualKeyCode.Escape) :
    (w.update state samples).components = w.components ∧
    (w.update state samples).menu = w.menu ∧
    (w.update state samples).frame = w.frame + 1 ∧
    w.key_down_event (some code) =
      (if (Window.press_components code w.components).2 then
        KeyDownResult.cont { w with
          components := (Window.press_components code w.components).1 }
      else
        KeyDownResult.cont { w with
          components := (Window.press_components code w.components).1,
          menu := some (GameOverCause.WrongKey code) }) := by
  have hcode : (code == VirtualKeyCode.Escape) = false := by simpa using hc
  refine ⟨?_, ?_, ?_, ?_⟩
  · simp [Window.update, hp]
  · simp [Window.update, hp]
  · simp [Window.update, hp]
  · by_cases hfix : (Window.press_components code w.components).2 = true
    · simp [Window.key_down_event, hcode, hfix]
    · simp [Window.key_down_event, hcode, hfix, Window.pause]

/-- C3 witness: the amended behaviour at the paused window holding a broken
object, for the key M. -/
theorem paused_update_frozen_but_keys_still_handled_witness :
    (w_paused.update GAME_STATE (fun _ => 0)).components = w_paused.components ∧
    (w_paused.update GAME_STATE (fun _ => 0)).menu = w_paused.menu ∧
    (w_paused.update GAME_STATE (fun _ => 0)).frame = w_paused.frame + 1 ∧
    w_paused.key_down_event (some VirtualKeyCode.M) =
      (if (Window.press_components VirtualKeyCode.M w_paused.components).2 then
        KeyDownResult.cont { w_paused with
          components := (Window.press_components VirtualKeyCode.M w_paused.components).1 }
      else
        KeyDownResult.cont { w_paused with
          components := (Window.press_components VirtualKeyCode.M w_paused.components).1,
          menu := some (GameOverCause.WrongKey VirtualKeyCode.M) }) :=
  paused_update_frozen_but_keys_still_handled w_paused GAME_STATE (fun _ => 0)
    VirtualKeyCode.M (by decide) (by decide)

/-- C5 (counterexample): the canonical layout's keys are NOT distinct (the
three drawers share D) and one press of D clears the broken state of TWO
objects at once, so at most one object cleared per press is false. -/
theorem one_press_fixes_two_objects :
    (w_two_drawers.components.countP fun o => o.is_broken) = 2 ∧
    ((w_two_drawers.key_down_event (some VirtualKeyCode.D)).window.map
      fun w => w.components.countP fun o => o.is_broken) = some 0 ∧
    ¬(create_objects.map fun o => o.fix_key).Nodup := by
  decide

/-- C5 (amended): the handler attempts `on_key_pressed` on every object with
no early stop — the resulting collection is the pointwise press result and
the success flag is a disjunction over all objects — and on any success it
returns with no game over.  The canonical layout's keys are NOT all
distinct (the three drawers share D), so one press can clear several broken
objects. -/
theorem keypress_attempts_every_object (w : Window) (code : VirtualKeyCode)
    (hc : code ≠ VirtualKeyCode.Escape)
    (hfix : (Window.press_components code w.components).2 = true) :
    (Window.press_components code w.components).1 =
      (w.components.map fun o => (o.on_key_pressed code).2) ∧
    (Window.press_components code w.components).2 =
      (w.components.any fun o => (o.on_key_pressed code).1) ∧
    w.key_down_event (some code) =
      KeyDownResult.cont { w with
        components := (Window.press_components code w.components).1 } ∧
    ¬(create_objects.map fun o => o.fix_key).Nodup := by
  have hcode : (code == VirtualKeyCode.Escape) = false := by simpa using hc
  refine ⟨?_, ?_, ?_, by decide⟩
  · rw [press_components_eq]
  · rw [press_components_eq]
  · simp [Window.key_down_event, hcode, hfix]

/-- C5 witness: the amended behaviour at the layout with two broken drawers
and the key D. -/
theorem keypress_attempts_every_object_witness :
    (Window.press_components VirtualKeyCode.D w_two_drawers.components).1 =
      (w_two_drawers.components.map fun o => (o.on_key_pressed VirtualKeyCode.D).2) ∧
    (Window.press_components VirtualKeyCode.D w_two_drawers.components).2 =
      (w_two_drawers.components.any fun o => (o.on_key_pressed VirtualKeyCode.D).1) ∧
    w_two_drawers.key_down_event (some VirtualKeyCode.D) =
      KeyDownResult.cont { w_two_drawers with
        components := (Window.press_components VirtualKeyCode.D w_two_drawers.components).1 } ∧
    ¬(create_objects.map fun o => o.fix_key).Nodup :=
  keypress_attempts_every_object w_two_drawers VirtualKeyCode.D (by decide) (by decide)

/-- C2 (counterexample): in the Playing state with two broken objects, the
first passing the game-over boundary on this tick, `update` reports the
first object's key but leaves the second object completely un-ticked (its
counter and its popup frames are unchanged, though ticking would have
changed them) — so `update` does not first tick every object and only then
scan. -/
theorem update_leaves_later_objects_unticked :
    (w_two.update GAME_STATE (fun _ => 0)).components.drop 1 = [oB] ∧
    oB.update GAME_STATE 0 ≠ oB ∧
    (w_two.update GAME_STATE (fun _ => 0)).menu =
      some (GameOverCause.NotInTime VirtualKeyCode.W) ∧
    w_two.menu = none := by
  decide

/-- C2 (amended): when the component loop of `update` reports a game-over
key, there is an index n such that: objects up to and including n were
ticked in insertion order, with none before n passing the game-over test;
object n passes the test right after its own tick, keeps its broken state
(and popup), and its assigned key is the one reported; and every object
after n is left completely untouched — the loop checks each object
immediately after ticking it and stops at the first hit, instead of first
ticking all objects and then scanning. -/
theorem update_loop_stops_at_first_timeout (state : GameState) (samples : Nat → ℚ) :
    ∀ (comps : List FixableGameObject) (i : Nat)
      (comps' : List FixableGameObject) (k : VirtualKeyCode),
      Window.update_components state samples i comps = (comps', some k) →
      ∃ (n : Nat) (hn : n < comps.length),
        comps' = tick_all state samples i (comps.take (n + 1)) ++ comps.drop (n + 1) ∧
        (∀ o' ∈ tick_all state samples i (comps.take n),
          Window.timed_out_by_window o' = false) ∧
        Window.timed_out_by_window
          ((comps.get ⟨n, hn⟩).update state (samples (i + n))) = true ∧
        k = ((comps.get ⟨n, hn⟩).update state (samples (i + n))).fix_key ∧
        ((comps.get ⟨n, hn⟩).update state (samples (i + n))).is_broken = true := by
  intro comps
  induction comps with
  | nil =>
    intro i comps' k h
    simp [Window.update_components] at h
  | cons o rest ih =>
    intro i comps' k h
    cases ht : Window.timed_out_by_window (o.update state (samples i)) with
    | true =>
      rw [Window.update_components, if_pos ht] at h
      rw [Prod.mk.injEq, Option.some.injEq] at h
      obtain ⟨hc, hk⟩ := h
      refine ⟨0, by simp, ?_, by simp [tick_all], ?_, ?_, ?_⟩
      · simp [← hc, tick_all]
      · simpa using ht
      · simpa using hk.symm
      · have hb := ht
        rw [Window.timed_out_by_window, Bool.and_eq_true] at hb
        simpa using hb.1
    | false =>
      rw [Window.update_components, if_neg (by simp [ht])] at h
      rw [Prod.mk.injEq] at h
      obtain ⟨hc, hk⟩ := h
      have hrec : Window.update_components state samples (i + 1) rest =
          ((Window.update_components state samples (i + 1) rest).1, some k) := by
        rw [← hk]
      obtain ⟨n, hn, hA, hB, hC, hD, hE⟩ := ih (i + 1)
        (Window.update_components state samples (i + 1) rest).1 k hrec
      have harg : i + (n + 1) = i + 1 + n := by omega
      refine ⟨n + 1, by simpa using Nat.succ_lt_succ hn, ?_, ?_, ?_, ?_, ?_⟩
      · simp [← hc, tick_all, hA]
      · intro o'' hmem
        rw [List.take_succ_cons] at hmem
        simp only [tick_all] at hmem
        rcases List.mem_cons.mp hmem with h1 | h1
        · rw [h1]; exact ht
        · exact hB o'' h1
      · simpa [harg] using hC
      · simpa [harg] using hD
      · simpa [harg] using hE

/-- C2 witness: the amended loop description at a one-object window whose
object passes the game-over boundary on this tick. -/
theorem update_loop_stops_at_first_timeout_witness :
    ∃ (n : Nat) (hn : n < [oA].length),
      [oA.update GAME_STATE 0] =
        tick_all GAME_STATE (fun _ => 0) 0 ([oA].take (n + 1)) ++ [oA].drop (n + 1) ∧
      (∀ o' ∈ tick_all GAME_STATE (fun _ => 0) 0 ([oA].take n),
        Window.timed_out_by_window o' = false) ∧
      Window.timed_out_by_window (([oA].get ⟨n, hn⟩).update GAME_STATE 0) = true ∧
      VirtualKeyCode.W = (([oA].get ⟨n, hn⟩).update GAME_STATE 0).fix_key ∧
      (([oA].get ⟨n, hn⟩).update GAME_STATE 0).is_broken = true :=
  update_loop_stops_at_first_timeout GAME_STATE (fun _ => 0) [oA] 0
    [oA.update GAME_STATE 0] VirtualKeyCode.W (by decide)
